import Mathlib

/-!
# Verification of the triage-call-agent repository

Shallow embedding of the repository's code and of the spec's triage core,
with theorems settling the frozen claims about it.

Part 1 — the demo HTTP boundary (code under `src/`):
* `src/vercel_demo/app/api/create-order/route.ts` — the `POST` handler.
* `src/demo_frontend/checkout.ts` and `src/unnamed/part_000` — the fixed
  clients (both send `{paymentIntentId, amount, currency: "INR"}`).
* `src/unnamed/part_001` — the buggy client (no `currency` in the body).

Part 2 — the triage core (FailureInjector, Agents, TriageOrchestrator,
RCA Synthesizer).  That code is not under `src/`; it is modelled from the
spec, and each such definition says so in its doc comment.
-/

/-- A JSON value, as produced by `request.json()` / `JSON.parse`.
Numbers are modelled as integers (the repository only ever sends integral
amounts and the claims never depend on fractional values). -/
inductive Json where
  | null : Json
  | bool : Bool → Json
  | num : Int → Json
  | str : String → Json
  | arr : List Json → Json
  | obj : List (String × Json) → Json
deriving Repr

namespace Json

/-- Whether the value is the JSON value `null`. -/
def isNull : Json → Bool
  | .null => true
  | _ => false

/-- JavaScript property access `v[k]` for a non-numeric key `k`:
yields the field of an object, `undefined` (here `none`) otherwise.
Property access on `null` throws and is handled separately in `POSTcore`. -/
def get (j : Json) (k : String) : Option Json :=
  match j with
  | .obj kvs => kvs.lookup k
  | _ => none

/-- JavaScript truthiness of a value. -/
def truthy : Json → Bool
  | .null => false
  | .bool b => b
  | .num n => n != 0
  | .str s => s != ""
  | .arr _ => true
  | .obj _ => true

/-- `Object.keys`: field names of an object, index strings of an array or a
string, `[]` for the primitives. -/
def jsKeys : Json → List String
  | .obj kvs => kvs.map (·.1)
  | .arr xs => (List.range xs.length).map toString
  | .str s => (List.range s.length).map toString
  | _ => []

/-- Whether property `k` is present on the value. -/
def hasField (j : Json) (k : String) : Bool := (j.get k).isSome

end Json

/-- JavaScript truthiness of an optional value: `undefined` (absent) is falsy. -/
def jsFalsy : Option Json → Bool
  | none => true
  | some v => !v.truthy

/-- A runtime exception escaping the route handler. -/
inductive JsError where
  | typeError : JsError
  | parseError : JsError
deriving Repr, DecidableEq

/-- An HTTP response as built by `NextResponse.json(body, {status})`;
the default status is 200. -/
structure Response where
  status : Nat
  body : Json
deriving Repr

/-- The constant message of the 400 failure body in `route.ts`. -/
def billingMessage : String :=
  "Missing required field: currency. Backend validation requires 'currency' field in payment request."

/-- The 400 failure body returned by `route.ts` when `!body.currency`. -/
def failureBody (body : Json) : Json :=
  .obj [("error", .str "BILLING_400"),
        ("message", .str billingMessage),
        ("details", .obj
          [("received_fields", .arr ((Json.jsKeys body).map .str)),
           ("required_fields", .arr [.str "paymentIntentId", .str "amount", .str "currency"]),
           ("missing_fields", .arr [.str "currency"])])]

/-- The success body returned by `route.ts`; `oid` stands for the value of
`Math.random().toString(36).substr(2, 9).toUpperCase()`. -/
def successBody (oid : String) : Json :=
  .obj [("success", .bool true),
        ("order_id", .str ("ORD-" ++ oid)),
        ("message", .str "Order created successfully")]

/-- The `POST` handler of `src/vercel_demo/app/api/create-order/route.ts`,
applied to an already-parsed JSON body.  `body.currency` on the JSON value
`null` throws a `TypeError` in JavaScript, hence the `Except`. -/
def POSTcore (oid : String) (body : Json) : Except JsError Response :=
  if body.isNull then
    .error .typeError
  else if jsFalsy (body.get "currency") then
    .ok { status := 400, body := failureBody body }
  else
    .ok { status := 200, body := successBody oid }

/-- The full handler including `await request.json()`: a request body that is
not valid JSON makes `request.json()` reject, and the handler has no
try/catch, so the rejection propagates (`none` stands for a non-JSON body). -/
def handleRequest (oid : String) (parsed : Option Json) : Except JsError Response :=
  match parsed with
  | none => .error .parseError
  | some body => POSTcore oid body

/-- `res.ok` in `fetch`: status in the 200–299 range. -/
def resOk (status : Nat) : Bool := 200 ≤ status && status < 300

/-- Request body built by the buggy client in `src/unnamed/part_001`:
`JSON.stringify({paymentIntentId, amount})` — no `currency`. -/
def buggyBody (pid : String) (amount : Int) : Json :=
  .obj [("paymentIntentId", .str pid), ("amount", .num amount)]

/-- Request body built by the fixed clients (`src/demo_frontend/checkout.ts`
and `src/unnamed/part_000`):
`JSON.stringify({paymentIntentId, amount, currency: "INR"})`. -/
def fixedBody (pid : String) (amount : Int) : Json :=
  .obj [("paymentIntentId", .str pid), ("amount", .num amount),
        ("currency", .str "INR")]

/-- `error.message || "Order failed"` as thrown by the buggy client after a
non-ok response. -/
def errorMessageOf (body : Json) : String :=
  match body.get "message" with
  | some (.str s) => if s = "" then "Order failed" else s
  | _ => "Order failed"

/-- The buggy client's `createOrder` (`src/unnamed/part_001`) composed with
the route handler: posts `buggyBody`, and on `!res.ok` throws
`new Error(error.message || "Order failed")`; otherwise returns `res.json()`. -/
def createOrderBuggy (oid pid : String) (amount : Int) : Except String Json :=
  match POSTcore oid (buggyBody pid amount) with
  | .error _ => .error "fetch failed"
  | .ok r => if resOk r.status then .ok r.body else .error (errorMessageOf r.body)

/-- The fixed clients' `createOrder` (`src/demo_frontend/checkout.ts` and
`src/unnamed/part_000`) composed with the route handler: posts `fixedBody`,
throws `new Error("Order failed")` on `!res.ok`, else returns `res.json()`. -/
def createOrderFixed (oid pid : String) (amount : Int) : Except String Json :=
  match POSTcore oid (fixedBody pid amount) with
  | .error _ => .error "fetch failed"
  | .ok r => if resOk r.status then .ok r.body else .error "Order failed"

/-- The failure shape CLAIMED by the spec for this endpoint: a body with
fields `error_code`, `message`, and `details.missing_fields`. -/
def claimedFailureShape (j : Json) : Bool :=
  j.hasField "error_code" && j.hasField "message" &&
    (match j.get "details" with
     | some d => d.hasField "missing_fields"
     | none => false)

/-- The failure shape the code actually produces: a body with fields
`error`, `message`, and `details.missing_fields`. -/
def actualFailureShape (j : Json) : Bool :=
  j.hasField "error" && j.hasField "message" &&
    (match j.get "details" with
     | some d => d.hasField "missing_fields"
     | none => false)

/-- The success shape: a body carrying an `order_id` field. -/
def successShape (j : Json) : Bool := j.hasField "order_id"

/-- `details.missing_fields` of a response body, when present. -/
def missingFieldsOf (j : Json) : Option Json :=
  (j.get "details").bind (fun d => d.get "missing_fields")

/-!
## Part 2 — the triage core, modelled from the spec

The triage core (FailurePolicy/FailureInjector, Agents, TriageOrchestrator,
RCA Synthesizer) is described by the repository README and the spec but its
code is not under `src/`; every definition below is therefore modelled from
the spec, as its doc comment says.
-/

namespace Triage

/-- Modelled from the spec (§4.5): the polymorphic agent roles.  The code
implementing the roles is missing from `src/`. -/
inductive Role where
  | chair | main | sre | billing | ordering | frontend
deriving Repr, DecidableEq

/-- Modelled from the spec (§3, §6): a `FailureRule` of the failure policy,
with `probability ∈ [0,1]` represented as a rational.  The policy file and
injector code are missing from `src/`. -/
structure FailureRule where
  service : String
  kind : String
  error_code : String
  probability : ℚ
deriving Repr, DecidableEq

namespace FailureInjector

/-- Modelled from the spec (§4.1): the rules applicable to service `s` that
trigger, in configured list order.  Each applicable rule consumes one
independent uniform draw `u i ∈ [0,1)` (index `i` counts applicable rules
seen so far) and triggers when the draw is below its probability.  The
injector code is missing from `src/`. -/
def triggeredRules (s : String) (u : Nat → ℚ) : List FailureRule → Nat → List FailureRule
  | [], _ => []
  | r :: rs, i =>
    if r.service = s then
      (if u i < r.probability then [r] else []) ++ triggeredRules s u rs (i + 1)
    else
      triggeredRules s u rs i

/-- Modelled from the spec (§4.1): `FailureInjector.sample(service)` — the
first triggering rule by configured priority (list order), or `none` when no
rule triggers (success path). -/
def sample (rules : List FailureRule) (s : String) (u : Nat → ℚ) : Option FailureRule :=
  (triggeredRules s u rules 0).head?

end FailureInjector

/-- Modelled from the spec (§3): a Ticket opened by the AlertEngine. -/
structure Ticket where
  id : Nat
  service : String
  error_code : String
  severity : String
deriving Repr, DecidableEq

/-- Modelled from the spec (§3): an agent's Finding for a ticket. -/
structure Finding where
  agent_role : Role
  ticket_id : Nat
  summary : String
  confidence : ℚ
  suggested_action : Option String
deriving Repr, DecidableEq

/-- Modelled from the spec (§3, §6): one knowledge entry of a runbook —
guidance text plus an optional fix template. -/
structure Guidance where
  text : String
  fix_template : Option String
deriving Repr, DecidableEq

/-- Modelled from the spec (§3): a per-role Runbook mapping error codes to
guidance. -/
structure Runbook where
  agent_role : Role
  knowledge : List (String × Guidance)
deriving Repr, DecidableEq

/-- Modelled from the spec (§4.5): an agent — a role, the services it owns,
and its runbook snapshot. -/
structure Agent where
  role : Role
  owned_services : List String
  runbook : Runbook
deriving Repr, DecidableEq

/-- Modelled from the spec (§4.4, §4.5, §7, §8): `Agent.analyze`.  A ticket
for a service the agent does not own, or an error code absent from its
`Runbook.knowledge`, degrades to a minimal Finding with confidence 0 and no
suggested action; it never fails the call.  Otherwise the knowledge entry
supplies the summary and the optional fix template as `suggested_action`. -/
def Agent.analyze (a : Agent) (t : Ticket) : Finding :=
  if t.service ∈ a.owned_services then
    match a.runbook.knowledge.lookup t.error_code with
    | some g =>
        { agent_role := a.role, ticket_id := t.id, summary := g.text,
          confidence := 9/10, suggested_action := g.fix_template }
    | none =>
        { agent_role := a.role, ticket_id := t.id, summary := "no matching guidance",
          confidence := 0, suggested_action := none }
  else
    { agent_role := a.role, ticket_id := t.id, summary := "service not owned",
      confidence := 0, suggested_action := none }

/-- Modelled from the spec (§3): the kind of a remediation Action. -/
inductive ActionKind where
  | PATCH | DEPLOY | NONE
deriving Repr, DecidableEq

/-- Modelled from the spec (§3): an Action recorded by the Frontend role. -/
structure Action where
  kind : ActionKind
  target : String
  description : String
  applied : Bool
deriving Repr, DecidableEq

/-- Modelled from the spec (§4.4, §5): the TriageCall states, with the two
terminal variants `CLOSED` and `ABORTED`. -/
inductive TState where
  | OPEN | ASSESSING | DIAGNOSING | REMEDIATING | DEPLOYED | CLOSED | ABORTED
deriving Repr, DecidableEq

/-- Position of a state along the forward pass
`OPEN → ASSESSING → DIAGNOSING → REMEDIATING → DEPLOYED → CLOSED`; both
terminal variants share the final position. -/
def stateRank : TState → Nat
  | .OPEN => 0
  | .ASSESSING => 1
  | .DIAGNOSING => 2
  | .REMEDIATING => 3
  | .DEPLOYED => 4
  | .CLOSED => 5
  | .ABORTED => 5

/-- Whether a state is terminal (`CLOSED` or `ABORTED`). -/
def isTerminal : TState → Bool
  | .CLOSED => true
  | .ABORTED => true
  | _ => false

/-- Modelled from the spec (§3): a TriageCall owned by the orchestrator. -/
structure TriageCall where
  ticket : Ticket
  state : TState
  findings : List Finding
  actions : List Action
deriving Repr, DecidableEq

/-- Modelled from the spec (§4.4): the agents the orchestrator drives —
MainAgent and SREAgent first, then the domain agents relevant to the
ticket's service, then FrontendAgent. -/
structure OrchestratorEnv where
  mainAgent : Agent
  sreAgent : Agent
  domainAgents : List Agent
  frontendAgent : Agent
deriving Repr, DecidableEq

/-- Domain agents relevant to the ticket's service (§4.4). -/
def domainFor (env : OrchestratorEnv) (t : Ticket) : List Agent :=
  env.domainAgents.filter (fun a => t.service ∈ a.owned_services)

/-- Whether some Finding carries a `suggested_action` (§4.4). -/
def hasActionable (fs : List Finding) : Bool :=
  fs.any (fun f => f.suggested_action.isSome)

/-- The simulated PATCH Action emitted by FrontendAgent, recorded as
applied (§4.4). -/
def patchAction (t : Ticket) : Action :=
  { kind := .PATCH, target := t.service,
    description := "patch for " ++ t.error_code, applied := true }

/-- Modelled from the spec (§4.4): one step of the TriageOrchestrator state
machine, returning the updated call and the roles invoked during the step.
`OPEN → ASSESSING` (ChairAgent opens), `ASSESSING → DIAGNOSING` (Main and
SRE findings recorded), `DIAGNOSING → REMEDIATING` when some Finding carries
a suggested action (domain agents invoked) and otherwise straight to
`CLOSED` (budget-exhausted, unresolved path), `REMEDIATING → DEPLOYED`
(FrontendAgent records an applied PATCH), `DEPLOYED → CLOSED`.  Terminal
states are fixpoints with no agent invocation.  The orchestrator code is
missing from `src/`. -/
def step (env : OrchestratorEnv) (c : TriageCall) : TriageCall × List Role :=
  match c.state with
  | .OPEN => ({ c with state := .ASSESSING }, [])
  | .ASSESSING =>
      ({ c with
          state := .DIAGNOSING,
          findings := c.findings ++
            [env.mainAgent.analyze c.ticket, env.sreAgent.analyze c.ticket] },
       [env.mainAgent.role, env.sreAgent.role])
  | .DIAGNOSING =>
      let fs := c.findings ++ (domainFor env c.ticket).map (·.analyze c.ticket)
      ({ c with
          state := if hasActionable fs then .REMEDIATING else .CLOSED,
          findings := fs },
       (domainFor env c.ticket).map (·.role))
  | .REMEDIATING =>
      ({ c with
          state := .DEPLOYED,
          actions := c.actions ++ [patchAction c.ticket] },
       [env.frontendAgent.role])
  | .DEPLOYED => ({ c with state := .CLOSED }, [])
  | .CLOSED => (c, [])
  | .ABORTED => (c, [])

/-- `n` orchestrator steps, with all roles invoked along the way. -/
def run (env : OrchestratorEnv) : Nat → TriageCall → TriageCall × List Role
  | 0, c => (c, [])
  | n + 1, c =>
      let p := step env c
      let q := run env n p.1
      (q.1, p.2 ++ q.2)

/-- Modelled from the spec (§3): the RCA report.  `generated_at` is a wall
clock timestamp and is omitted: the spec itself requires `synthesize` to be
deterministic in the TriageCall, and no claim mentions the timestamp. -/
structure RCAReport where
  ticket_id : Nat
  root_cause : String
  contributing_findings : List Finding
  remediation_summary : String
deriving Repr, DecidableEq

/-- The highest-confidence Finding carrying a `suggested_action`, the
earliest one on ties; `none` when no Finding carries one (§4.6). -/
def bestActionable : List Finding → Option Finding
  | [] => none
  | f :: fs =>
    if f.suggested_action.isSome then
      match bestActionable fs with
      | none => some f
      | some g => if f.confidence < g.confidence then some g else some f
    else
      bestActionable fs

namespace RCA

/-- Modelled from the spec (§4.6): `synthesize(TriageCall) -> RCAReport`.
Root cause is the `suggested_action` of the highest-confidence Finding with
a non-null `suggested_action`, or `"undetermined"` when no such Finding
exists, in which case the remediation summary notes the call closed
unresolved.  The synthesizer code is missing from `src/`. -/
def synthesize (c : TriageCall) : RCAReport :=
  { ticket_id := c.ticket.id,
    root_cause :=
      match bestActionable c.findings with
      | some f => f.suggested_action.getD "undetermined"
      | none => "undetermined",
    contributing_findings := c.findings,
    remediation_summary :=
      match bestActionable c.findings with
      | some _ => "remediated via suggested action"
      | none => "call closed unresolved" }

end RCA

end Triage

/-!
## Concrete demo instances (used by witnesses)
-/

/-- A demo runbook holding guidance for `BILLING_400` with a fix template. -/
def demoRunbook : Triage.Runbook :=
  { agent_role := .billing,
    knowledge := [("BILLING_400",
      { text := "schema mismatch: request body missing a required field",
        fix_template := some "add the missing currency field to the create-order request body" })] }

/-- A demo billing agent owning the billing service. -/
def billingAgent : Triage.Agent :=
  { role := .billing, owned_services := ["billing"], runbook := demoRunbook }

/-- A demo orchestrator environment. -/
def demoEnv : Triage.OrchestratorEnv :=
  { mainAgent := { role := .main, owned_services := ["billing"], runbook := demoRunbook },
    sreAgent := { role := .sre, owned_services := ["billing"], runbook := demoRunbook },
    domainAgents := [billingAgent],
    frontendAgent := { role := .frontend, owned_services := ["frontend"], runbook := demoRunbook } }

/-- The demo ticket of the spec's main scenario. -/
def demoTicket : Triage.Ticket :=
  { id := 1, service := "billing", error_code := "BILLING_400", severity := "warning" }

/-- A ticket whose error code has no entry in `demoRunbook`. -/
def unknownTicket : Triage.Ticket :=
  { id := 2, service := "billing", error_code := "ORDER_500", severity := "critical" }

/-- A freshly opened triage call. -/
def openCall : Triage.TriageCall :=
  { ticket := demoTicket, state := .OPEN, findings := [], actions := [] }

/-- An already closed triage call. -/
def closedCall : Triage.TriageCall :=
  { ticket := demoTicket, state := .CLOSED, findings := [], actions := [] }

/-- The demo failure rule of the README, with probability raised to 1. -/
def demoRule : Triage.FailureRule :=
  { service := "billing", kind := "schema_mismatch", error_code := "BILLING_400",
    probability := 1 }

/-- A constant uniform draw of one half. -/
def uHalf : Nat → ℚ := fun _ => 1 / 2

/-!
## Theorems — Part 1: the create-order HTTP boundary
-/

lemma actualFailureShape_failureBody (body : Json) :
    actualFailureShape (failureBody body) = true := rfl

lemma claimedFailureShape_failureBody (body : Json) :
    claimedFailureShape (failureBody body) = false := rfl

lemma successShape_failureBody (body : Json) :
    successShape (failureBody body) = false := rfl

lemma successShape_successBody (oid : String) :
    successShape (successBody oid) = true := rfl

lemma actualFailureShape_successBody (oid : String) :
    actualFailureShape (successBody oid) = false := rfl

lemma errorField_failureBody (body : Json) :
    (failureBody body).get "error" = some (.str "BILLING_400") := rfl

lemma missingFieldsOf_failureBody (body : Json) :
    missingFieldsOf (failureBody body) = some (.arr [.str "currency"]) := rfl

/-- C1 (as stated, counterexample): for the empty-object body the handler
returns a 400 failure whose JSON body has no `error_code` field (the code
names the field `error`) and no `order_id`, so the response has neither of
the two shapes the claim allows. -/
theorem c1_counterexample :
    POSTcore "A" (Json.obj []) =
      Except.ok (Response.mk 400 (failureBody (Json.obj []))) ∧
    claimedFailureShape (failureBody (Json.obj [])) = false ∧
    successShape (failureBody (Json.obj [])) = false :=
  ⟨rfl, rfl, rfl⟩

/-- C1 (amended): every response of the create-order handler is either a
400 failure whose body carries `error`, `message` and
`details.missing_fields` (and no `order_id`), or a 200 success whose body
carries `order_id` (and is not failure-shaped); no response has any other
shape. -/
theorem c1_response_shape (oid : String) (body : Json) (r : Response)
    (h : POSTcore oid body = Except.ok r) :
    (r.status = 400 ∧ actualFailureShape r.body = true ∧ successShape r.body = false) ∨
    (r.status = 200 ∧ successShape r.body = true ∧ actualFailureShape r.body = false) := by
  unfold POSTcore at h
  split at h
  · exact Except.noConfusion h
  · split at h
    · injection h with h
      subst h
      exact Or.inl ⟨rfl, actualFailureShape_failureBody body, successShape_failureBody body⟩
    · injection h with h
      subst h
      exact Or.inr ⟨rfl, successShape_successBody oid, actualFailureShape_successBody oid⟩

/-- C1 (witness): the amended theorem applied to the empty-object body. -/
theorem c1_response_shape_witness :
    ((Response.mk 400 (failureBody (Json.obj []))).status = 400 ∧
     actualFailureShape (Response.mk 400 (failureBody (Json.obj []))).body = true ∧
     successShape (Response.mk 400 (failureBody (Json.obj []))).body = false) ∨
    ((Response.mk 400 (failureBody (Json.obj []))).status = 200 ∧
     successShape (Response.mk 400 (failureBody (Json.obj []))).body = true ∧
     actualFailureShape (Response.mk 400 (failureBody (Json.obj []))).body = false) :=
  c1_response_shape "A" (Json.obj []) (Response.mk 400 (failureBody (Json.obj []))) rfl

/-- C2 (as stated, counterexample): a body where `currency` IS present but
is the empty string still gets the 400 failure, because the code tests
JavaScript truthiness (`!body.currency`), not presence; the claim predicted
a success with `order_id` for every body with `currency` present. -/
theorem c2_counterexample :
    Json.hasField (Json.obj [("currency", Json.str "")]) "currency" = true ∧
    POSTcore "A" (Json.obj [("currency", Json.str "")]) =
      Except.ok (Response.mk 400 (failureBody (Json.obj [("currency", Json.str "")]))) ∧
    successShape (failureBody (Json.obj [("currency", Json.str "")])) = false :=
  ⟨rfl, rfl, rfl⟩

/-- C2 (amended): the handler fails exactly when `body.currency` is absent
or JavaScript-falsy (`null`, `false`, `0`, `""`): then it returns status 400
with `error` value `"BILLING_400"` and `details.missing_fields =
["currency"]` and no `order_id`; when `body.currency` is truthy it returns
status 200 with an `order_id`. -/
theorem c2_currency_truthiness (oid : String) (body : Json) (r : Response)
    (h : POSTcore oid body = Except.ok r) :
    (jsFalsy (body.get "currency") = true ∧ r.status = 400 ∧
     r.body.get "error" = some (.str "BILLING_400") ∧
     missingFieldsOf r.body = some (.arr [.str "currency"]) ∧
     successShape r.body = false) ∨
    (jsFalsy (body.get "currency") = false ∧ r.status = 200 ∧
     successShape r.body = true) := by
  unfold POSTcore at h
  split at h
  · exact Except.noConfusion h
  · split at h
    · injection h with h
      subst h
      rename_i hc
      exact Or.inl ⟨hc, rfl, errorField_failureBody body, missingFieldsOf_failureBody body,
        successShape_failureBody body⟩
    · injection h with h
      subst h
      rename_i hc
      exact Or.inr ⟨Bool.not_eq_true _ ▸ eq_false_of_ne_true hc, rfl,
        successShape_successBody oid⟩

/-- C2 (witness): the amended theorem applied to the empty-string-currency
body. -/
theorem c2_currency_truthiness_witness :
    (jsFalsy ((Json.obj [("currency", Json.str "")]).get "currency") = true ∧
     (Response.mk 400 (failureBody (Json.obj [("currency", Json.str "")]))).status = 400 ∧
     (Response.mk 400 (failureBody (Json.obj [("currency", Json.str "")]))).body.get "error" =
       some (.str "BILLING_400") ∧
     missingFieldsOf (Response.mk 400 (failureBody (Json.obj [("currency", Json.str "")]))).body =
       some (.arr [.str "currency"]) ∧
     successShape (Response.mk 400 (failureBody (Json.obj [("currency", Json.str "")]))).body =
       false) ∨
    (jsFalsy ((Json.obj [("currency", Json.str "")]).get "currency") = false ∧
     (Response.mk 400 (failureBody (Json.obj [("currency", Json.str "")]))).status = 200 ∧
     successShape (Response.mk 400 (failureBody (Json.obj [("currency", Json.str "")]))).body =
       true) :=
  c2_currency_truthiness "A" (Json.obj [("currency", Json.str "")])
    (Response.mk 400 (failureBody (Json.obj [("currency", Json.str "")]))) rfl

/-- C3 (as stated, counterexample): the JSON body `null` is well-formed
JSON, yet the handler throws a `TypeError` (`body.currency` on `null`)
instead of returning a failure value. -/
theorem c3_counterexample :
    POSTcore "A" Json.null = Except.error JsError.typeError := rfl

/-- C3 (amended): for every well-formed JSON order request other than the
JSON value `null`, the handler reports failure as a returned value — it
returns a response, never throws. -/
theorem c3_failure_is_a_value (oid : String) (body : Json)
    (h : body.isNull = false) :
    (POSTcore oid body).isOk = true := by
  unfold POSTcore
  rw [h]
  simp only [Bool.false_eq_true, if_false]
  split <;> rfl

/-- C3 (witness): the amended theorem applied to the empty-object body. -/
theorem c3_failure_is_a_value_witness :
    (POSTcore "A" (Json.obj [])).isOk = true :=
  c3_failure_is_a_value "A" (Json.obj []) rfl

/-- C8: a request body that is not valid JSON makes `request.json()` reject
and the handler has no try/catch, so the exception propagates: the handler
does not return the structured failure value, and "failure is a value"
holds only when the body parses as JSON. -/
theorem c8_invalid_json_propagates (oid : String) :
    handleRequest oid none = Except.error JsError.parseError ∧
    (handleRequest oid none).isOk = false :=
  ⟨rfl, rfl⟩

/-- C9: the buggy client's body never carries `currency`, so the handler
always answers the 400 `BILLING_400` failure, `res.ok` is false and
`createOrder` always throws `error.message` instead of returning. -/
theorem c9_buggy_client_always_throws (oid pid : String) (amount : Int) :
    POSTcore oid (buggyBody pid amount) =
      Except.ok (Response.mk 400 (failureBody (buggyBody pid amount))) ∧
    createOrderBuggy oid pid amount = Except.error billingMessage :=
  ⟨rfl, rfl⟩

/-- C10: the fixed clients always send `currency: "INR"`, which is truthy,
so the handler never takes the failure branch and `createOrder` returns the
success JSON, which carries `order_id`. -/
theorem c10_fixed_client_succeeds (oid pid : String) (amount : Int) :
    createOrderFixed oid pid amount = Except.ok (successBody oid) ∧
    (successBody oid).get "order_id" = some (.str ("ORD-" ++ oid)) :=
  ⟨rfl, rfl⟩

/-!
## Theorems — Part 2: the triage core
-/

lemma step_advances (env : Triage.OrchestratorEnv) (c : Triage.TriageCall)
    (h : Triage.isTerminal c.state = false) :
    Triage.stateRank (Triage.step env c).1.state > Triage.stateRank c.state := by
  cases hs : c.state
  case OPEN => simp [Triage.step, hs, Triage.stateRank]
  case ASSESSING => simp [Triage.step, hs, Triage.stateRank]
  case DIAGNOSING =>
    simp only [Triage.step, hs]
    split <;> simp [Triage.stateRank]
  case REMEDIATING => simp [Triage.step, hs, Triage.stateRank]
  case DEPLOYED => simp [Triage.step, hs, Triage.stateRank]
  case CLOSED => rw [hs] at h; exact absurd h (by simp [Triage.isTerminal])
  case ABORTED => rw [hs] at h; exact absurd h (by simp [Triage.isTerminal])

lemma step_terminal_fix (env : Triage.OrchestratorEnv) (c : Triage.TriageCall)
    (h : Triage.isTerminal c.state = true) :
    Triage.step env c = (c, []) := by
  cases hs : c.state
  case CLOSED => simp [Triage.step, hs]
  case ABORTED => simp [Triage.step, hs]
  all_goals rw [hs, Triage.isTerminal] at h
  all_goals exact Bool.noConfusion h

lemma run_fixpoint (env : Triage.OrchestratorEnv) (c : Triage.TriageCall)
    (hstep : Triage.step env c = (c, [])) :
    ∀ n, Triage.run env n c = (c, []) := by
  intro n
  induction n with
  | zero => rfl
  | succ m ih =>
    simp only [Triage.run, hstep, ih]
    rfl

/-- C4: the TriageOrchestrator state machine is monotonic — every step taken
from a non-terminal state strictly advances the call along the forward pass
`OPEN → ASSESSING → DIAGNOSING → REMEDIATING → DEPLOYED → CLOSED` (no
backward transitions), and once the call is in a terminal state (`CLOSED`
or `ABORTED`) any number of further steps leaves it unchanged and invokes no
Agent. -/
theorem c4_monotonic_state_machine (env : Triage.OrchestratorEnv)
    (c : Triage.TriageCall) :
    (Triage.isTerminal c.state = false →
       Triage.stateRank (Triage.step env c).1.state > Triage.stateRank c.state) ∧
    (Triage.isTerminal c.state = true →
       ∀ n, Triage.run env n c = (c, [])) := by
  refine ⟨step_advances env c, ?_⟩
  intro h n
  exact run_fixpoint env c (step_terminal_fix env c h) n

/-- C4 (witness): one step from an `OPEN` call advances its state, and three
steps from a `CLOSED` call change nothing and invoke nobody. -/
theorem c4_monotonic_state_machine_witness :
    Triage.stateRank (Triage.step demoEnv openCall).1.state >
      Triage.stateRank openCall.state ∧
    Triage.run demoEnv 3 closedCall = (closedCall, []) :=
  ⟨(c4_monotonic_state_machine demoEnv openCall).1 rfl,
   (c4_monotonic_state_machine demoEnv closedCall).2 rfl 3⟩

/-- C7: an agent invoked for a service it does not own, or for an error code
absent from its `Runbook.knowledge`, returns a Finding with confidence 0 and
no suggested action — it never aborts the call — and the orchestrator still
advances from every non-terminal state. -/
theorem c7_agent_degradation (a : Triage.Agent) (t : Triage.Ticket)
    (h : t.service ∉ a.owned_services ∨
      a.runbook.knowledge.lookup t.error_code = none) :
    (a.analyze t).confidence = 0 ∧ (a.analyze t).suggested_action = none ∧
    ∀ env : Triage.OrchestratorEnv, ∀ c : Triage.TriageCall,
      Triage.isTerminal c.state = false →
        Triage.stateRank (Triage.step env c).1.state > Triage.stateRank c.state := by
  have key : (a.analyze t).confidence = 0 ∧ (a.analyze t).suggested_action = none := by
    unfold Triage.Agent.analyze
    by_cases hmem : t.service ∈ a.owned_services
    · rcases h with h | h
      · exact absurd hmem h
      · rw [if_pos hmem, h]
        exact ⟨rfl, rfl⟩
    · rw [if_neg hmem]
      exact ⟨rfl, rfl⟩
  exact ⟨key.1, key.2, fun env c hc => step_advances env c hc⟩

/-- C7 (witness): the billing agent invoked for `ORDER_500`, an error code
absent from its runbook, degrades to a confidence-0 Finding with no
suggested action. -/
theorem c7_agent_degradation_witness :
    (billingAgent.analyze unknownTicket).confidence = 0 ∧
    (billingAgent.analyze unknownTicket).suggested_action = none :=
  ⟨(c7_agent_degradation billingAgent unknownTicket (Or.inr rfl)).1,
   (c7_agent_degradation billingAgent unknownTicket (Or.inr rfl)).2.1⟩

lemma triggered_prob_pos (s : String) (u : Nat → ℚ) (hu : ∀ i, 0 ≤ u i) :
    ∀ (rules : List Triage.FailureRule) (i : Nat) (r : Triage.FailureRule),
      r ∈ Triage.FailureInjector.triggeredRules s u rules i → 0 < r.probability := by
  intro rules
  induction rules with
  | nil =>
    intro i r h
    simp [Triage.FailureInjector.triggeredRules] at h
  | cons a rs ih =>
    intro i r h
    unfold Triage.FailureInjector.triggeredRules at h
    split at h
    · rw [List.mem_append] at h
      rcases h with h | h
      · split at h
        · rename_i htrig
          rw [List.mem_singleton] at h
          subst h
          exact lt_of_le_of_lt (hu i) htrig
        · exact absurd h (List.not_mem_nil r)
      · exact ih (i + 1) r h
    · exact ih i r h

lemma triggered_of_prob_one (s : String) (u : Nat → ℚ) (hu : ∀ i, u i < 1) :
    ∀ (rules : List Triage.FailureRule) (i : Nat) (r : Triage.FailureRule),
      r ∈ rules → r.service = s → r.probability = 1 →
        r ∈ Triage.FailureInjector.triggeredRules s u rules i := by
  intro rules
  induction rules with
  | nil =>
    intro i r h
    exact absurd h (List.not_mem_nil r)
  | cons a rs ih =>
    intro i r hmem hs hp
    unfold Triage.FailureInjector.triggeredRules
    rcases List.mem_cons.mp hmem with rfl | hmem'
    · rw [if_pos hs, hp]
      rw [if_pos (hu i)]
      exact List.mem_append_left _ (List.mem_singleton.mpr rfl)
    · split
      · exact List.mem_append_right _ (ih (i + 1) r hmem' hs hp)
      · exact ih i r hmem' hs hp

lemma triggered_sublist (s : String) (u : Nat → ℚ) :
    ∀ (rules : List Triage.FailureRule) (i : Nat),
      (Triage.FailureInjector.triggeredRules s u rules i).Sublist rules := by
  intro rules
  induction rules with
  | nil =>
    intro i
    exact List.Sublist.refl []
  | cons a rs ih =>
    intro i
    unfold Triage.FailureInjector.triggeredRules
    split
    · split
      · exact List.Sublist.cons₂ a (ih (i + 1))
      · exact List.Sublist.cons a (ih (i + 1))
    · exact List.Sublist.cons a (ih i)

/-- C5: with every uniform draw in `[0,1)`, a rule with probability 0 never
triggers (and is never the sampled result), an applicable rule with
probability 1 always triggers, and `FailureInjector.sample` returns the
first triggering rule in configured list order (the triggering rules are a
sublist of the configured list, and `sample` is its head). -/
theorem c5_failure_injector (rules : List Triage.FailureRule) (s : String)
    (u : Nat → ℚ) (hu : ∀ i, 0 ≤ u i ∧ u i < 1) :
    (∀ r : Triage.FailureRule, r.probability = 0 →
       r ∉ Triage.FailureInjector.triggeredRules s u rules 0 ∧
       Triage.FailureInjector.sample rules s u ≠ some r) ∧
    (∀ r ∈ rules, r.service = s → r.probability = 1 →
       r ∈ Triage.FailureInjector.triggeredRules s u rules 0) ∧
    (Triage.FailureInjector.triggeredRules s u rules 0).Sublist rules ∧
    Triage.FailureInjector.sample rules s u =
      (Triage.FailureInjector.triggeredRules s u rules 0).head? := by
  have hmem0 : ∀ r : Triage.FailureRule, r.probability = 0 →
      r ∉ Triage.FailureInjector.triggeredRules s u rules 0 := by
    intro r hp hmem
    have hpos := triggered_prob_pos s u (fun i => (hu i).1) rules 0 r hmem
    rw [hp] at hpos
    exact lt_irrefl 0 hpos
  refine ⟨?_, ?_, triggered_sublist s u rules 0, rfl⟩
  · intro r hp
    refine ⟨hmem0 r hp, ?_⟩
    intro hsample
    apply hmem0 r hp
    unfold Triage.FailureInjector.sample at hsample
    cases hl : Triage.FailureInjector.triggeredRules s u rules 0 with
    | nil => rw [hl] at hsample; exact Option.noConfusion hsample
    | cons x xs =>
      rw [hl] at hsample
      rw [List.head?_cons] at hsample
      injection hsample with hx
      rw [hx]
      exact List.mem_cons_self r xs
  · exact fun r hr hs' hp => triggered_of_prob_one s u (fun i => (hu i).2) rules 0 r hr hs' hp

/-- C5 (witness): the probability-1 demo rule for the billing service is
always triggered under the constant draw one half. -/
theorem c5_failure_injector_witness :
    demoRule ∈ Triage.FailureInjector.triggeredRules "billing" uHalf [demoRule] 0 :=
  (c5_failure_injector [demoRule] "billing" uHalf
      (fun i => ⟨by norm_num [uHalf], by norm_num [uHalf]⟩)).2.1
    demoRule (List.mem_singleton.mpr rfl) rfl rfl

lemma bestActionable_eq_none (fs : List Triage.Finding)
    (h : ∀ f ∈ fs, f.suggested_action = none) :
    Triage.bestActionable fs = none := by
  induction fs with
  | nil => rfl
  | cons a t ih =>
    unfold Triage.bestActionable
    rw [h a (List.mem_cons_self a t)]
    simp only [Option.isSome_none, Bool.false_eq_true, if_false]
    exact ih fun f hf => h f (List.mem_cons_of_mem a hf)

lemma bestActionable_isSome (fs : List Triage.Finding) (f : Triage.Finding)
    (hf : f ∈ fs) (ha : f.suggested_action.isSome = true) :
    (Triage.bestActionable fs).isSome = true := by
  induction fs with
  | nil => exact absurd hf (List.not_mem_nil f)
  | cons a t ih =>
    unfold Triage.bestActionable
    rcases List.mem_cons.mp hf with rfl | hmem
    · rw [if_pos ha]
      split
      · rfl
      · split <;> rfl
    · by_cases hcond : a.suggested_action.isSome = true
      · rw [if_pos hcond]
        split
        · rfl
        · split <;> rfl
      · rw [if_neg hcond]
        exact ih hmem

lemma bestActionable_spec (fs : List Triage.Finding) :
    ∀ f : Triage.Finding, Triage.bestActionable fs = some f →
      f ∈ fs ∧ f.suggested_action.isSome = true ∧
        ∀ g ∈ fs, g.suggested_action.isSome = true → g.confidence ≤ f.confidence := by
  induction fs with
  | nil =>
    intro f h
    exact Option.noConfusion h
  | cons a t ih =>
    intro f h
    unfold Triage.bestActionable at h
    by_cases hc : a.suggested_action.isSome = true
    · rw [if_pos hc] at h
      cases hb : Triage.bestActionable t with
      | none =>
        rw [hb] at h
        have h' : some a = some f := h
        injection h' with h''
        subst h''
        refine ⟨List.mem_cons_self _ _, hc, ?_⟩
        intro g hg hgs
        rcases List.mem_cons.mp hg with rfl | hmem
        · exact le_refl _
        · have := bestActionable_isSome t g hmem hgs
          rw [hb] at this
          exact Bool.noConfusion this
      | some b =>
        rw [hb] at h
        have h' : (if a.confidence < b.confidence then some b else some a) = some f := h
        obtain ⟨hbmem, hbs, hbmax⟩ := ih b hb
        by_cases hlt : a.confidence < b.confidence
        · rw [if_pos hlt] at h'
          injection h' with h''
          subst h''
          refine ⟨List.mem_cons_of_mem a hbmem, hbs, ?_⟩
          intro g hg hgs
          rcases List.mem_cons.mp hg with rfl | hmem
          · exact le_of_lt hlt
          · exact hbmax g hmem hgs
        · rw [if_neg hlt] at h'
          injection h' with h''
          subst h''
          refine ⟨List.mem_cons_self _ _, hc, ?_⟩
          intro g hg hgs
          rcases List.mem_cons.mp hg with rfl | hmem
          · exact le_refl _
          · exact le_trans (hbmax g hmem hgs) (not_lt.mp hlt)
    · rw [if_neg hc] at h
      obtain ⟨hmem, hs', hmax⟩ := ih f h
      refine ⟨List.mem_cons_of_mem a hmem, hs', ?_⟩
      intro g hg hgs
      rcases List.mem_cons.mp hg with rfl | hmem2
      · exact absurd hgs hc
      · exact hmax g hmem2 hgs

/-- C6: RCA synthesis is a deterministic pure function of the TriageCall —
two calls with the same ticket, findings and actions get an identical
report — and its `root_cause` is `"undetermined"` when no Finding carries a
`suggested_action`, and otherwise equals the `suggested_action` of a
highest-confidence Finding among those carrying one. -/
theorem c6_rca_synthesis (c : Triage.TriageCall) :
    (∀ c' : Triage.TriageCall, c'.ticket = c.ticket → c'.findings = c.findings →
       c'.actions = c.actions →
         Triage.RCA.synthesize c' = Triage.RCA.synthesize c) ∧
    ((∀ f ∈ c.findings, f.suggested_action = none) →
       (Triage.RCA.synthesize c).root_cause = "undetermined") ∧
    (∀ f ∈ c.findings, f.suggested_action.isSome = true →
       ∃ g ∈ c.findings, ∃ a, g.suggested_action = some a ∧
         (Triage.RCA.synthesize c).root_cause = a ∧
         ∀ g' ∈ c.findings, g'.suggested_action.isSome = true →
           g'.confidence ≤ g.confidence) := by
  refine ⟨?_, ?_, ?_⟩
  · intro c' h1 h2 h3
    unfold Triage.RCA.synthesize
    rw [h1, h2]
  · intro h
    unfold Triage.RCA.synthesize
    rw [bestActionable_eq_none c.findings h]
  · intro f hf hfs
    have hsome := bestActionable_isSome c.findings f hf hfs
    obtain ⟨g, hg⟩ := Option.isSome_iff_exists.mp hsome
    obtain ⟨hmem, hgs, hmax⟩ := bestActionable_spec c.findings g hg
    obtain ⟨a, ha⟩ := Option.isSome_iff_exists.mp hgs
    refine ⟨g, hmem, a, ha, ?_, hmax⟩
    unfold Triage.RCA.synthesize
    rw [hg]
    show g.suggested_action.getD "undetermined" = a
    rw [ha]
    rfl

/-- C6 (witness): a call with no findings gets root cause `"undetermined"`,
and synthesis applied twice to the same call data agrees. -/
theorem c6_rca_synthesis_witness :
    Triage.RCA.synthesize closedCall = Triage.RCA.synthesize closedCall ∧
    (Triage.RCA.synthesize closedCall).root_cause = "undetermined" :=
  ⟨(c6_rca_synthesis closedCall).1 closedCall rfl rfl rfl,
   (c6_rca_synthesis closedCall).2.1 (by simp [closedCall])⟩
